import Mathlib

/-!
Shallow embedding of the Direct-AP WiFi provisioning client in
`src/WiFiConfigModal.js`: the `fetchWithTimeout` wrapper, the
`scanWifiNetworksViaHTTP` and `configureWifiViaHTTP` operations, and the
`cleanupWifiListener` teardown routine, together with theorems settling the
behavioural claims of the specification.

JavaScript values that the code tests for truthiness are modelled
explicitly: optional fields are `Option`, string truthiness is
"present and non-empty", and integer truthiness is "non-zero".
-/

/-- JS truthiness of a possibly-absent string: `undefined`/`null` and the
empty string are falsy (`!deviceId`, `!userId`, `!wifiPassword`). -/
def strTruthy : Option String → Bool
  | none => false
  | some s => s != ""

/-- Characters removed by JavaScript `String.prototype.trim`. -/
def isJsWhitespace (c : Char) : Bool :=
  c = ' ' || c = '\t' || c = '\n' || c = '\r' || c = Char.ofNat 11 || c = Char.ofNat 12

/-- JavaScript `s.trim()`: strip whitespace from both ends. -/
def jsTrim (s : String) : String :=
  String.mk (((s.data.dropWhile isJsWhitespace).reverse.dropWhile isJsWhitespace).reverse)

/-- JavaScript `v || dflt` on a possibly-absent string: the empty string is
falsy, so it also falls through to the default (`result.error || dflt`). -/
def jsOrElse (s : Option String) (dflt : String) : String :=
  match s with
  | some v => if v == "" then dflt else v
  | none => dflt

/-- A network entry as reported by the device: every field may be absent in
the JSON object. -/
structure Network where
  ssid : Option String
  rssi : Option Int
  encryption : Option String
  deriving DecidableEq, Repr

/-- The `networks` field of a scan response body: absent, present but not an
array, or an array whose entries may be `null`. -/
inductive NetworksField where
  | missing
  | notArray
  | arr (entries : List (Option Network))
  deriving DecidableEq, Repr

/-- Parsed JSON body of a scan response. -/
structure ScanBody where
  success : Bool
  networks : NetworksField
  deriving DecidableEq, Repr

/-- Parsed JSON body of a configure response. -/
structure ConfigBody where
  success : Bool
  error : Option String
  deriving DecidableEq, Repr

/-- The filter predicate of `scanWifiNetworksViaHTTP`:
`network && network.ssid && network.ssid.trim() !== ''`. -/
def keepNetwork : Option Network → Bool
  | none => false
  | some n =>
    match n.ssid with
    | none => false
    | some s => s != "" && jsTrim s != ""

/-- The entries surviving the filter, in response order. -/
def validEntries (es : List (Option Network)) : List Network :=
  es.filterMap (fun e => if keepNetwork e then e else none)

/-- The sort key of the comparator `(b.rssi || -100) - (a.rssi || -100)`:
JS `||` falls through on falsy values, so both a missing `rssi` and an
`rssi` of `0` become `-100`. -/
def sortKey (n : Network) : Int :=
  match n.rssi with
  | none => -100
  | some r => if r = 0 then -100 else r

/-- Stable insertion into a list sorted descending by `sortKey`: the new
element goes past every strictly larger key and in front of equal keys
later in the original order, matching the stable `Array.prototype.sort`. -/
def insertByKey (n : Network) : List Network → List Network
  | [] => [n]
  | m :: ms => if sortKey n < sortKey m then m :: insertByKey n ms else n :: m :: ms

/-- Stable sort, descending by `sortKey`. -/
def sortByKeyDesc : List Network → List Network
  | [] => []
  | n :: ns => insertByKey n (sortByKeyDesc ns)

/-- The `validNetworks` list of `scanWifiNetworksViaHTTP`: filter, then sort
descending by the falsy-defaulted `rssi`. -/
def scanCandidates (es : List (Option Network)) : List Network :=
  sortByKeyDesc (validEntries es)

/-- Descending sortedness by a key. -/
def SortedDescBy (key : Network → Int) (l : List Network) : Prop :=
  l.Pairwise (fun a b => key b ≤ key a)

/-- An HTTP response head. `ok` is the fetch-API predicate: status in 200..299. -/
structure HttpResponse where
  status : Nat
  statusText : String
  deriving DecidableEq, Repr

def HttpResponse.ok (r : HttpResponse) : Bool :=
  200 ≤ r.status && r.status ≤ 299

/-- The JS error values flowing through the catch blocks. The constructor
records the throw site; `name` recovers the dynamic `error.name` the catch
blocks branch on, and `message` the `error.message` shown to the user. -/
inductive JsErr where
  /-- the `AbortError` from a fetch aborted by the timeout controller. -/
  | abortError
  /-- the error thrown on `!response.ok`; its message reads `HTTP status: text`. -/
  | httpError (status : Nat) (statusText : String)
  /-- the error thrown by configure on a 2xx body with `success` false. -/
  | configFailure (message : String)
  /-- a transport-level rejection from fetch itself (its own name/message). -/
  | transport (errName errMessage : String)
  deriving DecidableEq, Repr

def JsErr.name : JsErr → String
  | .abortError => "AbortError"
  | .httpError _ _ => "Error"
  | .configFailure _ => "Error"
  | .transport n _ => n

def JsErr.message : JsErr → String
  | .abortError => "Aborted"
  | .httpError s t => "HTTP " ++ toString s ++ ": " ++ t
  | .configFailure m => m
  | .transport _ m => m

/-- The behaviour of one underlying `fetch` call, parametrised by the parsed
body type: it settles at time `t` (in ms) either resolving with a response
or rejecting with a transport error of the given name and message. -/
inductive FetchBehavior (β : Type) where
  | resolves (t : Nat) (resp : HttpResponse) (body : β)
  | rejects (t : Nat) (errName errMessage : String)
  deriving Repr

def FetchBehavior.settleTime {β : Type} : FetchBehavior β → Nat
  | .resolves t _ _ => t
  | .rejects t _ _ => t

/-- The underlying `fetch(url, { signal })` under an abort scheduled at
`timeoutMs`: a call still pending when the controller aborts rejects with
an `AbortError` instead of its own outcome. -/
def rawFetch {β : Type} (b : FetchBehavior β) (timeoutMs : Nat) :
    Except JsErr (HttpResponse × β) :=
  match b with
  | .resolves t resp body =>
    if t < timeoutMs then .ok (resp, body) else .error .abortError
  | .rejects t n m =>
    if t < timeoutMs then .error (.transport n m) else .error .abortError

/-- Lifecycle of the timer registered by `fetchWithTimeout`. -/
structure TimerState where
  registered : Bool
  fired : Bool
  cleared : Bool
  deriving DecidableEq, Repr

/-- A timer is pending when registered and neither fired nor cleared. -/
def TimerState.pending (ts : TimerState) : Bool :=
  ts.registered && !ts.fired && !ts.cleared

structure FetchReturn (β : Type) where
  result : Except JsErr (HttpResponse × β)
  timer : TimerState
  deriving Repr

/-- The wrapper `fetchWithTimeout`: register a timer that aborts the controller at
`timeoutMs`; await the fetch, and call `clearTimeout` in both the success
branch and the catch branch before returning or re-throwing unchanged. -/
def fetchWithTimeout {β : Type} (b : FetchBehavior β) (timeoutMs : Nat) :
    FetchReturn β :=
  let timer : TimerState :=
    { registered := true, fired := timeoutMs ≤ b.settleTime, cleared := false }
  match rawFetch b timeoutMs with
  | .ok r => { result := .ok r, timer := { timer with cleared := true } }
  | .error e => { result := .error e, timer := { timer with cleared := true } }

/-- Timeouts hard-coded at the two `fetchWithTimeout` call sites. -/
def scanTimeoutMs : Nat := 30000

def configureTimeoutMs : Nat := 60000

/-- The caller-visible React state of the modal, plus the `mountedRef`
liveness flag consulted before every state write in a continuation. -/
structure ModalState where
  mounted : Bool
  wifiNetworks : List Network
  selectedNetwork : Option Network
  wifiPassword : String
  isScanning : Bool
  isConfiguring : Bool
  deriving DecidableEq, Repr

/-- The ref cells released by `cleanupWifiListener`. The `Bool` payloads
record whether invoking the listener / a deferred cleanup function throws;
every such invocation in the source is wrapped in try/catch. -/
structure RefsState where
  wifiScanTimer : Option Nat
  wifiListener : Option Bool
  cleanupFunctions : List Bool
  deriving DecidableEq, Repr

/-- One release action performed by `cleanupWifiListener`. -/
inductive Release where
  | clearScanTimer (id : Nat)
  | removeListener
  | runCleanupFn (idx : Nat)
  deriving DecidableEq, Repr

structure CleanupResult where
  refs : RefsState
  released : List Release
  raised : Bool
  deriving DecidableEq, Repr

/-- The routine `cleanupWifiListener`: clear and null the scan timer if set; invoke and
null the listener if set (the call sits in try/catch, so a throwing listener
is still nulled); invoke every deferred cleanup function (each under its own
try/catch) and empty the list. No statement outside the try/catch wrappers
can throw, so the routine never raises. -/
def cleanupWifiListener (r : RefsState) : CleanupResult :=
  let timerStep : RefsState × List Release :=
    match r.wifiScanTimer with
    | some id => ({ r with wifiScanTimer := none }, [Release.clearScanTimer id])
    | none => (r, [])
  let listenerStep : RefsState × List Release :=
    match timerStep.1.wifiListener with
    | some _ => ({ timerStep.1 with wifiListener := none }, [Release.removeListener])
    | none => (timerStep.1, [])
  let fnReleases : List Release :=
    (List.range listenerStep.1.cleanupFunctions.length).map Release.runCleanupFn
  { refs := { listenerStep.1 with cleanupFunctions := [] }
    released := timerStep.2 ++ listenerStep.2 ++ fnReleases
    raised := false }

/-- The error taxonomy of the specification, as surfaced to the caller. -/
inductive ErrKind where
  | timeoutError
  | httpStatusError (status : Nat) (statusText : String)
  | networkError (message : String)
  | configurationError (message : String)
  | validationError (message : String)
  deriving DecidableEq, Repr

/-- Caller-visible outcome of one scan invocation. -/
inductive ScanOutcome where
  /-- the guard rejected the call before any request. -/
  | noOp
  /-- the "No Networks Found" alert: an empty result, not an error. -/
  | emptyResult
  | networksUpdated (networks : List Network)
  | failed (kind : ErrKind)
  /-- the continuation found the flow unmounted and dropped the result. -/
  | discarded
  deriving DecidableEq, Repr

/-- Mapping a caught error to the specification's error kind. The catch
blocks branch on whether `error.name` equals `AbortError`; among the remaining errors
the kind is determined by the throw site recorded in the constructor. -/
def caughtKind (e : JsErr) : ErrKind :=
  if e.name == "AbortError" then .timeoutError
  else
    match e with
    | .abortError => .timeoutError
    | .httpError s t => .httpStatusError s t
    | .configFailure m => .configurationError m
    | .transport _ m => .networkError m

/-- The catch block of `scanWifiNetworksViaHTTP`: when still mounted, reset
`isScanning` and alert with the timeout or failure message; when unmounted,
do nothing. -/
def scanCatch (st : ModalState) (e : JsErr) : ModalState × ScanOutcome :=
  if st.mounted then ({ st with isScanning := false }, .failed (caughtKind e))
  else (st, .discarded)

/-- The `else` branch of the scan response handler ("No networks found"). -/
def scanNoNetworks (st : ModalState) : ModalState × ScanOutcome :=
  if st.mounted then ({ st with isScanning := false }, .emptyResult)
  else (st, .discarded)

/-- The continuation of `scanWifiNetworksViaHTTP` applied to the settled
fetch, evaluated against the modal state at resolution time. -/
def scanResolve (st : ModalState) (r : Except JsErr (HttpResponse × ScanBody)) :
    ModalState × ScanOutcome :=
  match r with
  | .error e => scanCatch st e
  | .ok (resp, data) =>
    if !resp.ok then scanCatch st (.httpError resp.status resp.statusText)
    else
      match data.success, data.networks with
      | true, .arr entries =>
        let valid := scanCandidates entries
        if st.mounted then
          ({ st with wifiNetworks := valid, isScanning := false },
            .networksUpdated valid)
        else (st, .discarded)
      | _, _ => scanNoNetworks st

structure ScanStart where
  state : ModalState
  refs : RefsState
  issued : Bool
  deriving DecidableEq, Repr

/-- The synchronous prefix of `scanWifiNetworksViaHTTP`: the re-entrancy /
identity guard, the teardown of previous listeners, the mounted check, and
the initial state writes (`isScanning := true`, `wifiNetworks := []`). -/
def scanStart (deviceId userId : Option String) (st : ModalState)
    (refs : RefsState) : ScanStart :=
  if !strTruthy deviceId || st.isScanning || !strTruthy userId then
    { state := st, refs := refs, issued := false }
  else
    let refs1 := (cleanupWifiListener refs).refs
    if !st.mounted then { state := st, refs := refs1, issued := false }
    else
      { state := { st with isScanning := true, wifiNetworks := [] }
        refs := refs1
        issued := true }

structure ScanRunResult where
  state : ModalState
  refs : RefsState
  issued : Bool
  outcome : ScanOutcome
  deriving DecidableEq, Repr

/-- A whole scan invocation in which the flow is not torn down while the
request is in flight: start, the timeout-bounded GET, and the continuation. -/
def scanRun (deviceId userId : Option String) (st : ModalState)
    (refs : RefsState) (b : FetchBehavior ScanBody) : ScanRunResult :=
  let s := scanStart deviceId userId st refs
  if s.issued then
    let fr := fetchWithTimeout b scanTimeoutMs
    let res := scanResolve s.state fr.result
    { state := res.1, refs := s.refs, issued := true, outcome := res.2 }
  else
    { state := s.state, refs := s.refs, issued := false, outcome := .noOp }

/-- Caller-visible outcome of one configure invocation. -/
inductive ConfigureOutcome where
  /-- the device accepted the credentials; the caller closes the flow. -/
  | accepted
  | failed (kind : ErrKind)
  /-- the continuation found the flow unmounted and dropped the result. -/
  | discarded
  deriving DecidableEq, Repr

/-- The catch block of `configureWifiViaHTTP`. -/
def configureCatch (st : ModalState) (e : JsErr) : ModalState × ConfigureOutcome :=
  if st.mounted then ({ st with isConfiguring := false }, .failed (caughtKind e))
  else (st, .discarded)

/-- The continuation of `configureWifiViaHTTP` applied to the settled fetch.
A 2xx body with `success` false throws `new Error(result.error ||
...)`, which the catch block then surfaces. -/
def configureResolve (st : ModalState)
    (r : Except JsErr (HttpResponse × ConfigBody)) : ModalState × ConfigureOutcome :=
  match r with
  | .error e => configureCatch st e
  | .ok (resp, result) =>
    if !resp.ok then configureCatch st (.httpError resp.status resp.statusText)
    else if result.success then
      if st.mounted then ({ st with isConfiguring := false }, .accepted)
      else (st, .discarded)
    else
      configureCatch st (.configFailure (jsOrElse result.error "Configuration failed"))

structure ConfigureAttempt where
  state : ModalState
  transportCalls : Nat
  outcome : ConfigureOutcome
  deriving DecidableEq, Repr

/-- A whole configure invocation in which the flow is not torn down while
the request is in flight: the two validation guards (both alert and return
before any state write or network call), the `isConfiguring := true` write,
the timeout-bounded POST, and the continuation. -/
def configureRun (deviceId userId : Option String) (st : ModalState)
    (b : FetchBehavior ConfigBody) : ConfigureAttempt :=
  match st.selectedNetwork with
  | none =>
    { state := st, transportCalls := 0
      outcome := .failed (.validationError "Please select a network") }
  | some n =>
    if !strTruthy deviceId || st.isConfiguring || !strTruthy userId then
      { state := st, transportCalls := 0
        outcome := .failed (.validationError "Please select a network") }
    else if n.encryption != some "OPEN" && !strTruthy (some st.wifiPassword) then
      { state := st, transportCalls := 0
        outcome := .failed (.validationError "Please enter the WiFi password") }
    else
      let st1 := { st with isConfiguring := true }
      let fr := fetchWithTimeout b configureTimeoutMs
      let res := configureResolve st1 fr.result
      { state := res.1, transportCalls := 1, outcome := res.2 }

/-- Modelled from the claim's words (for comparison with `keepNetwork`):
only entries with an empty or missing `ssid` are removed. -/
def claimKeep : Option Network → Bool
  | none => false
  | some n =>
    match n.ssid with
    | none => false
    | some s => s != ""

/-- Modelled from the claim's words (for comparison with `sortKey`): a
missing `rssi` is treated as `-100`; any present `rssi` keeps its value. -/
def claimKey (n : Network) : Int :=
  match n.rssi with
  | none => -100
  | some r => r

/-- Stable insertion for the claim-side descending sort. -/
def claimInsert (n : Network) : List Network → List Network
  | [] => [n]
  | m :: ms => if claimKey n < claimKey m then m :: claimInsert n ms else n :: m :: ms

/-- Stable descending sort by the claim-side key. -/
def claimSortDesc : List Network → List Network
  | [] => []
  | n :: ns => claimInsert n (claimSortDesc ns)

/-- The candidate list exactly as the claim words it: entries with an empty
or missing `ssid` removed, the rest sorted descending by `rssi` with a
missing `rssi` treated as `-100`. -/
def claimCandidates (es : List (Option Network)) : List Network :=
  claimSortDesc (es.filterMap (fun e => if claimKeep e then e else none))

/-- Fixture: a 200 response head. -/
def ok200 : HttpResponse := { status := 200, statusText := "OK" }

/-- Fixture: a 500 response head. -/
def resp500 : HttpResponse := { status := 500, statusText := "Internal Server Error" }

/-- Fixture: network with whitespace-only ssid (dropped by the code's
`trim()` check, kept by the claim's "empty or missing" wording). -/
def nwSpace : Network := { ssid := some " ", rssi := some (-40), encryption := some "OPEN" }

/-- Fixture: network whose `rssi` is `0` (falsy in JS, so the comparator
treats it as `-100` even though it is present). -/
def nwZero : Network := { ssid := some "A", rssi := some 0, encryption := some "WPA2" }

def nwB : Network := { ssid := some "B", rssi := some (-50), encryption := some "WPA2" }

def nwHome : Network := { ssid := some "Home", rssi := some (-55), encryption := some "WPA2" }

def nwEmpty : Network := { ssid := some "", rssi := some (-40), encryption := some "OPEN" }

def nwGuest : Network := { ssid := some "Guest", rssi := some (-70), encryption := some "OPEN" }

/-- Fixture entries exhibiting both JS-falsiness edge cases. -/
def exEntries : List (Option Network) := [some nwSpace, some nwZero, some nwB]

/-- Fixture entries of end-to-end scenario 1 of the specification. -/
def scenarioEntries : List (Option Network) := [some nwHome, some nwEmpty, some nwGuest]

/-- Fixture: a mounted state with a scan in flight. -/
def exScanState : ModalState :=
  { mounted := true, wifiNetworks := [], selectedNetwork := none,
    wifiPassword := "", isScanning := true, isConfiguring := false }

/-- Fixture: a mounted idle state holding a previously scanned list. -/
def exPriorState : ModalState :=
  { mounted := true, wifiNetworks := [nwHome], selectedNetwork := none,
    wifiPassword := "", isScanning := false, isConfiguring := false }

/-- Fixture: a mounted state with a configure in flight. -/
def exCfgState : ModalState :=
  { mounted := true, wifiNetworks := [nwHome], selectedNetwork := some nwHome,
    wifiPassword := "pw", isScanning := false, isConfiguring := true }

/-- Fixture: a mounted idle state with a secured network selected and no
password entered. -/
def exNoPwState : ModalState :=
  { mounted := true, wifiNetworks := [nwHome], selectedNetwork := some nwHome,
    wifiPassword := "", isScanning := false, isConfiguring := false }

/-- Fixture: an unmounted state. -/
def exGoneState : ModalState :=
  { mounted := false, wifiNetworks := [nwHome], selectedNetwork := some nwHome,
    wifiPassword := "pw", isScanning := true, isConfiguring := true }

/-- Fixture: a mounted idle state with a secured network selected and a
password entered, ready to configure. -/
def exCfgStartState : ModalState :=
  { mounted := true, wifiNetworks := [nwHome], selectedNetwork := some nwHome,
    wifiPassword := "pw", isScanning := false, isConfiguring := false }

/-- Fixture: empty ref cells. -/
def exRefs : RefsState := { wifiScanTimer := none, wifiListener := none, cleanupFunctions := [] }

/-- Fixture: ref cells holding a timer, a throwing listener and two deferred
cleanup functions. -/
def exFullRefs : RefsState :=
  { wifiScanTimer := some 7, wifiListener := some true, cleanupFunctions := [true, false] }

/-- Fixture: a transport-level rejection well before the timeout. -/
def exRejectScan : FetchBehavior ScanBody := .rejects 0 "TypeError" "Network request failed"

theorem insertByKey_perm (n : Network) (l : List Network) :
    List.Perm (insertByKey n l) (n :: l) := by
  induction l with
  | nil => simp [insertByKey]
  | cons m ms ih =>
    simp only [insertByKey]
    by_cases h : sortKey n < sortKey m
    · simp only [h, if_pos]
      exact (ih.cons m).trans (List.Perm.swap n m ms)
    · simp [h]

theorem sortByKeyDesc_perm (l : List Network) :
    List.Perm (sortByKeyDesc l) l := by
  induction l with
  | nil => simp [sortByKeyDesc]
  | cons n ns ih =>
    exact (insertByKey_perm n (sortByKeyDesc ns)).trans (ih.cons n)

theorem mem_insertByKey {x n : Network} {l : List Network}
    (hx : x ∈ insertByKey n l) : x = n ∨ x ∈ l := by
  have h := (insertByKey_perm n l).mem_iff.mp hx
  simpa using h

theorem insertByKey_sorted (n : Network) (l : List Network)
    (hl : SortedDescBy sortKey l) : SortedDescBy sortKey (insertByKey n l) := by
  induction l with
  | nil => simp [insertByKey, SortedDescBy]
  | cons m ms ih =>
    rcases List.pairwise_cons.mp hl with ⟨hm, hms⟩
    simp only [insertByKey]
    by_cases h : sortKey n < sortKey m
    · simp only [h, if_pos]
      refine List.pairwise_cons.mpr ⟨?_, ih hms⟩
      intro x hx
      rcases mem_insertByKey hx with rfl | hx
      · exact le_of_lt h
      · exact hm x hx
    · simp only [h, if_neg, not_false_iff]
      refine List.pairwise_cons.mpr ⟨?_, hl⟩
      intro x hx
      rcases List.mem_cons.mp hx with rfl | hx
      · exact not_lt.mp h
      · exact le_trans (hm x hx) (not_lt.mp h)

theorem sortByKeyDesc_sorted (l : List Network) :
    SortedDescBy sortKey (sortByKeyDesc l) := by
  induction l with
  | nil => simp [sortByKeyDesc, SortedDescBy]
  | cons n ns ih => exact insertByKey_sorted n (sortByKeyDesc ns) ih

/-- C1 counterexample: on a 2xx, success-true scan response whose `networks`
array contains a whitespace-only ssid and an `rssi` of `0`, the list the
code exposes differs from the claim's description (entries with empty or
missing ssid removed, sorted descending by rssi with missing rssi as -100):
the code also drops the whitespace-only ssid and sorts the `rssi = 0` entry
as if it were `-100`. -/
theorem claim1_counterexample :
    (scanResolve exScanState
        (.ok (ok200, { success := true, networks := .arr exEntries }))).1.wifiNetworks
      ≠ claimCandidates exEntries := by
  decide

/-- C1 (amended): for every scan response that is 2xx with success true and
a networks array, the list exposed to the caller is exactly the input
entries with null entries and entries whose ssid is missing, empty, or
whitespace-only removed, stably sorted descending by rssi where an rssi
that is missing or 0 (JS-falsy) is treated as -100; the result depends only
on the response, so it replaces any prior list. -/
theorem claim1_theorem (st : ModalState) (resp : HttpResponse) (body : ScanBody)
    (entries : List (Option Network))
    (hm : st.mounted = true) (hok : resp.ok = true)
    (hs : body.success = true) (hn : body.networks = .arr entries) :
    (scanResolve st (.ok (resp, body))).1.wifiNetworks = scanCandidates entries ∧
    List.Perm (scanResolve st (.ok (resp, body))).1.wifiNetworks (validEntries entries) ∧
    SortedDescBy sortKey (scanResolve st (.ok (resp, body))).1.wifiNetworks ∧
    (scanResolve st (.ok (resp, body))).2 = .networksUpdated (scanCandidates entries) := by
  obtain ⟨bs, bn⟩ := body
  simp only at hs hn
  subst hs hn
  simp only [scanResolve, hok, Bool.not_true, Bool.false_eq_true, if_false, hm, if_true]
  exact ⟨by simp [scanCandidates], sortByKeyDesc_perm _, sortByKeyDesc_sorted _, by simp [scanCandidates]⟩

/-- C1 witness: end-to-end scenario 1 of the specification. -/
theorem claim1_witness :
    (scanResolve exScanState
        (.ok (ok200, { success := true, networks := .arr scenarioEntries }))).1.wifiNetworks
      = scanCandidates scenarioEntries ∧
    List.Perm
      (scanResolve exScanState
        (.ok (ok200, { success := true, networks := .arr scenarioEntries }))).1.wifiNetworks
      (validEntries scenarioEntries) ∧
    SortedDescBy sortKey
      (scanResolve exScanState
        (.ok (ok200, { success := true, networks := .arr scenarioEntries }))).1.wifiNetworks ∧
    (scanResolve exScanState
        (.ok (ok200, { success := true, networks := .arr scenarioEntries }))).2
      = .networksUpdated (scanCandidates scenarioEntries) :=
  claim1_theorem exScanState ok200
    { success := true, networks := .arr scenarioEntries } scenarioEntries
    rfl (by decide) rfl rfl

/-- C2: whenever a network is selected, its encryption is not OPEN and the
password is empty, `configureWifiViaHTTP` fails with a `ValidationError`
before any network call: the transport is invoked zero times and the state
is untouched. (When some other precondition also fails, the earlier guard
fires, still a `ValidationError` with zero transport calls.) -/
theorem claim2_theorem (deviceId userId : Option String) (st : ModalState)
    (b : FetchBehavior ConfigBody) (n : Network)
    (hsel : st.selectedNetwork = some n)
    (henc : n.encryption ≠ some "OPEN")
    (hpw : st.wifiPassword = "") :
    (configureRun deviceId userId st b).transportCalls = 0 ∧
    (configureRun deviceId userId st b).state = st ∧
    ∃ msg, (configureRun deviceId userId st b).outcome =
      .failed (.validationError msg) := by
  have hbne : (n.encryption != some "OPEN") = true := bne_iff_ne.mpr henc
  simp only [configureRun, hsel, hpw]
  split
  · exact ⟨rfl, rfl, "Please select a network", rfl⟩
  · have hcond : (n.encryption != some "OPEN" && !strTruthy (some "")) = true := by
      simp [hbne, strTruthy]
    simp only [hcond, if_true]
    refine ⟨?_, ?_, ⟨"Please enter the WiFi password", ?_⟩⟩ <;> simp

/-- C2 witness: end-to-end scenario 3 (secured network, empty password). -/
theorem claim2_witness :
    (configureRun (some "dev") (some "user") exNoPwState
        (.resolves 0 ok200 { success := true, error := none })).transportCalls = 0 ∧
    (configureRun (some "dev") (some "user") exNoPwState
        (.resolves 0 ok200 { success := true, error := none })).state = exNoPwState ∧
    ∃ msg, (configureRun (some "dev") (some "user") exNoPwState
        (.resolves 0 ok200 { success := true, error := none })).outcome =
      .failed (.validationError msg) :=
  claim2_theorem (some "dev") (some "user") exNoPwState
    (.resolves 0 ok200 { success := true, error := none }) nwHome
    rfl (by decide) rfl

/-- Helper: an unmounted continuation never changes state (scan side). -/
theorem scanResolve_unmounted (st : ModalState)
    (r : Except JsErr (HttpResponse × ScanBody)) (hm : st.mounted = false) :
    scanResolve st r = (st, .discarded) := by
  cases r with
  | error e => simp [scanResolve, scanCatch, hm]
  | ok p =>
    obtain ⟨resp, data⟩ := p
    obtain ⟨ds, dn⟩ := data
    by_cases hok : resp.ok
    · cases ds <;> cases dn <;> simp [scanResolve, hok, scanNoNetworks, hm]
    · simp only [Bool.not_eq_true] at hok
      simp [scanResolve, hok, scanCatch, hm]

/-- Helper: an unmounted continuation never changes state (configure side). -/
theorem configureResolve_unmounted (st : ModalState)
    (r : Except JsErr (HttpResponse × ConfigBody)) (hm : st.mounted = false) :
    configureResolve st r = (st, .discarded) := by
  cases r with
  | error e => simp [configureResolve, configureCatch, hm]
  | ok p =>
    obtain ⟨resp, result⟩ := p
    obtain ⟨cs, ce⟩ := result
    by_cases hok : resp.ok
    · cases cs <;> simp [configureResolve, hok, configureCatch, hm]
    · simp only [Bool.not_eq_true] at hok
      simp [configureResolve, hok, configureCatch, hm]

/-- Helper: a scan continuation ending in a failure leaves exactly the state
with `isScanning` reset. -/
theorem scanResolve_state_of_failed (st : ModalState)
    (r : Except JsErr (HttpResponse × ScanBody)) (k : ErrKind)
    (h : (scanResolve st r).2 = .failed k) :
    (scanResolve st r).1 = { st with isScanning := false } := by
  by_cases hm : st.mounted
  · cases r with
    | error e => simp [scanResolve, scanCatch, hm]
    | ok p =>
      obtain ⟨resp, data⟩ := p
      obtain ⟨ds, dn⟩ := data
      by_cases hok : resp.ok
      · cases ds <;> cases dn <;>
          simp [scanResolve, hok, scanNoNetworks, hm] at h
      · simp only [Bool.not_eq_true] at hok
        simp [scanResolve, hok, scanCatch, hm]
  · simp only [Bool.not_eq_true] at hm
    rw [scanResolve_unmounted st r hm] at h
    simp at h

/-- Helper: a configure continuation ending in a failure leaves exactly the
state with `isConfiguring` reset. -/
theorem configureResolve_state_of_failed (st : ModalState)
    (r : Except JsErr (HttpResponse × ConfigBody)) (k : ErrKind)
    (h : (configureResolve st r).2 = .failed k) :
    (configureResolve st r).1 = { st with isConfiguring := false } := by
  by_cases hm : st.mounted
  · cases r with
    | error e => simp [configureResolve, configureCatch, hm]
    | ok p =>
      obtain ⟨resp, result⟩ := p
      obtain ⟨cs, ce⟩ := result
      by_cases hok : resp.ok
      · cases cs
        · simp [configureResolve, hok, configureCatch, hm]
        · simp [configureResolve, hok, hm] at h
      · simp only [Bool.not_eq_true] at hok
        simp [configureResolve, hok, configureCatch, hm]
  · simp only [Bool.not_eq_true] at hm
    rw [configureResolve_unmounted st r hm] at h
    simp at h

/-- Helper: when `scanStart` issues the request, the state it hands to the
continuation is the caller's state with `isScanning` set and the networks
list cleared. -/
theorem scanStart_issued (deviceId userId : Option String) (st : ModalState)
    (refs : RefsState)
    (h : (scanStart deviceId userId st refs).issued = true) :
    (scanStart deviceId userId st refs).state =
      { st with isScanning := true, wifiNetworks := [] } := by
  by_cases hg : (!strTruthy deviceId || st.isScanning || !strTruthy userId) = true
  · simp [scanStart, hg] at h
  · simp only [Bool.not_eq_true] at hg
    by_cases hm : st.mounted
    · simp [scanStart, hg, hm]
    · simp only [Bool.not_eq_true] at hm
      simp [scanStart, hg, hm] at h

/-- C3 counterexample: a 2xx configure response with `success` false and an
`error` field that is present but empty yields the generic message, not the
body's `error` field as the claim states for every present field: JS
`result.error || generic` treats the empty string as falsy. -/
theorem claim3_counterexample :
    ({ success := false, error := some "" } : ConfigBody).error = some "" ∧
    (configureResolve exCfgState
        (.ok (ok200, { success := false, error := some "" }))).2 =
      .failed (.configurationError "Configuration failed") ∧
    (configureResolve exCfgState
        (.ok (ok200, { success := false, error := some "" }))).2 ≠
      .failed (.configurationError "") := by
  decide

/-- C3 (amended): a 2xx body with success false is handled asymmetrically:
scan treats it as the empty-result condition ("no networks found"), never
as an error, while configure fails with `ConfigurationError` whose message
is the body's `error` field when that field is present and non-empty,
otherwise the generic message. -/
theorem claim3_theorem (sts stc : ModalState) (resp : HttpResponse)
    (sb : ScanBody) (cb : ConfigBody)
    (hms : sts.mounted = true) (hmc : stc.mounted = true) (hok : resp.ok = true)
    (hss : sb.success = false) (hcs : cb.success = false) :
    scanResolve sts (.ok (resp, sb)) = ({ sts with isScanning := false }, .emptyResult) ∧
    (∀ k, (scanResolve sts (.ok (resp, sb))).2 ≠ .failed k) ∧
    configureResolve stc (.ok (resp, cb)) =
      ({ stc with isConfiguring := false },
        .failed (.configurationError (jsOrElse cb.error "Configuration failed"))) := by
  obtain ⟨ss, sn⟩ := sb
  obtain ⟨cs, ce⟩ := cb
  simp only at hss hcs
  subst hss hcs
  refine ⟨?_, ?_, ?_⟩
  · simp [scanResolve, hok, scanNoNetworks, hms]
  · intro k
    simp [scanResolve, hok, scanNoNetworks, hms]
  · simp [configureResolve, hok, configureCatch, hmc, caughtKind, JsErr.name]

/-- C3 witness: end-to-end scenario 2 (scan `{success:false}`) together with
a configure failure carrying a non-empty device-reported message. -/
theorem claim3_witness :
    scanResolve exScanState (.ok (ok200, { success := false, networks := .missing })) =
      ({ exScanState with isScanning := false }, .emptyResult) ∧
    (∀ k, (scanResolve exScanState
        (.ok (ok200, { success := false, networks := .missing }))).2 ≠ .failed k) ∧
    configureResolve exCfgState
        (.ok (ok200, { success := false, error := some "wrong password" })) =
      ({ exCfgState with isConfiguring := false },
        .failed (.configurationError
          (jsOrElse (some "wrong password") "Configuration failed"))) :=
  claim3_theorem exScanState exCfgState ok200
    { success := false, networks := .missing }
    { success := false, error := some "wrong password" }
    rfl rfl (by decide) rfl rfl

/-- C4 counterexample: a failed scan does not leave the networks list as it
was before the scan: `setWifiNetworks([])` runs when the scan starts, so a
prior non-empty list is gone after the failure even though networks was
never replaced by a successful scan. -/
theorem claim4_counterexample :
    (scanRun (some "dev") (some "user") exPriorState exRefs exRejectScan).outcome =
      .failed (.networkError "Network request failed") ∧
    (scanRun (some "dev") (some "user") exPriorState exRefs exRejectScan).state.wifiNetworks
      ≠ exPriorState.wifiNetworks := by
  decide

/-- C4 (amended): every failure path resets the in-flight flag and leaves no
partial result, but after a failed scan the networks list is empty (it is
cleared when the scan starts), not the pre-scan list; a configure failure
after the POST was issued resets `isConfiguring` and leaves everything else
(including the networks list) as it was, and a configure rejected before
any transport call leaves the whole state untouched. -/
theorem claim4_theorem (deviceId userId : Option String) (st : ModalState)
    (refs : RefsState) (bs : FetchBehavior ScanBody) (bc : FetchBehavior ConfigBody)
    (ks kc : ErrKind) :
    ((scanRun deviceId userId st refs bs).outcome = .failed ks →
      (scanRun deviceId userId st refs bs).state =
        { st with isScanning := false, wifiNetworks := [] }) ∧
    ((configureRun deviceId userId st bc).outcome = .failed kc →
      ((configureRun deviceId userId st bc).transportCalls = 0 →
        (configureRun deviceId userId st bc).state = st) ∧
      ((configureRun deviceId userId st bc).transportCalls = 1 →
        (configureRun deviceId userId st bc).state =
          { st with isConfiguring := false })) := by
  constructor
  · intro hfail
    by_cases hiss : (scanStart deviceId userId st refs).issued = true
    · have hstate := scanStart_issued deviceId userId st refs hiss
      simp only [scanRun, hiss, if_true] at hfail ⊢
      rw [hstate] at hfail ⊢
      have := scanResolve_state_of_failed _ _ _ hfail
      rw [this]
    · simp only [Bool.not_eq_true] at hiss
      simp [scanRun, hiss] at hfail
  · intro hfail
    simp only [configureRun] at hfail ⊢
    cases hsel : st.selectedNetwork with
    | none => simp only [hsel] at hfail ⊢; exact ⟨by simp, by simp⟩
    | some n =>
      simp only [hsel] at hfail ⊢
      by_cases hg : (!strTruthy deviceId || st.isConfiguring || !strTruthy userId) = true
      · simp only [hg, if_true] at hfail ⊢
        exact ⟨by simp, by simp⟩
      · simp only [Bool.not_eq_true] at hg
        simp only [hg, Bool.false_eq_true, if_false] at hfail ⊢
        by_cases hpw : (n.encryption != some "OPEN" && !strTruthy (some st.wifiPassword)) = true
        · simp only [hpw, if_true] at hfail ⊢
          exact ⟨by simp, by simp⟩
        · simp only [Bool.not_eq_true] at hpw
          simp only [hpw, Bool.false_eq_true, if_false] at hfail ⊢
          refine ⟨by simp, fun _ => ?_⟩
          have := configureResolve_state_of_failed _ _ _ hfail
          rw [this]

/-- C4 witness: a configure POST refused by the device (HTTP 500) resets
`isConfiguring` and leaves the networks list untouched, and a failed scan
(transport error) ends with `isScanning` false and an empty networks list. -/
theorem claim4_witness :
    ((scanRun (some "dev") (some "user") exPriorState exRefs exRejectScan).outcome =
        .failed (.networkError "Network request failed") →
      (scanRun (some "dev") (some "user") exPriorState exRefs exRejectScan).state =
        { exPriorState with isScanning := false, wifiNetworks := [] }) ∧
    ((scanRun (some "dev") (some "user") exPriorState exRefs exRejectScan).state =
      { exPriorState with isScanning := false, wifiNetworks := [] }) :=
  ⟨(claim4_theorem (some "dev") (some "user") exPriorState exRefs exRejectScan
      (.resolves 0 resp500 { success := true, error := none })
      (.networkError "Network request failed") .timeoutError).1,
    (claim4_theorem (some "dev") (some "user") exPriorState exRefs exRejectScan
      (.resolves 0 resp500 { success := true, error := none })
      (.networkError "Network request failed") .timeoutError).1 (by decide)⟩

/-- Helper: the wrapper returns exactly what the underlying (abortable)
fetch produced. -/
theorem fetchWithTimeout_result {β : Type} (b : FetchBehavior β) (timeoutMs : Nat) :
    (fetchWithTimeout b timeoutMs).result = rawFetch b timeoutMs := by
  cases h : rawFetch b timeoutMs <;> simp [fetchWithTimeout, h]

/-- Helper: a fetch that has not settled when the timer fires is aborted. -/
theorem rawFetch_of_timeout {β : Type} (b : FetchBehavior β) (timeoutMs : Nat)
    (h : timeoutMs ≤ b.settleTime) : rawFetch b timeoutMs = .error .abortError := by
  cases b with
  | resolves t resp body =>
    simp only [FetchBehavior.settleTime] at h
    simp [rawFetch, Nat.not_lt.mpr h]
  | rejects t n m =>
    simp only [FetchBehavior.settleTime] at h
    simp [rawFetch, Nat.not_lt.mpr h]

/-- C5: after teardown (`mounted` false at resolution time), no continuation
of an outstanding scan or configure request mutates caller-visible state:
the mounted check guards every write, and the result is silently discarded. -/
theorem claim5_theorem (st : ModalState)
    (rs : Except JsErr (HttpResponse × ScanBody))
    (rc : Except JsErr (HttpResponse × ConfigBody))
    (hm : st.mounted = false) :
    scanResolve st rs = (st, .discarded) ∧ configureResolve st rc = (st, .discarded) :=
  ⟨scanResolve_unmounted st rs hm, configureResolve_unmounted st rc hm⟩

/-- C5 witness: a successful scan response and a successful configure
response both arriving after teardown leave the state untouched. -/
theorem claim5_witness :
    scanResolve exGoneState
        (.ok (ok200, { success := true, networks := .arr scenarioEntries })) =
      (exGoneState, .discarded) ∧
    configureResolve exGoneState
        (.ok (ok200, { success := true, error := none })) =
      (exGoneState, .discarded) :=
  claim5_theorem exGoneState
    (.ok (ok200, { success := true, networks := .arr scenarioEntries }))
    (.ok (ok200, { success := true, error := none })) rfl

/-- C6: a scan call while one is in flight, or with the device id or the
session context absent, is rejected by the guard as a no-op: no request is
issued, and state and refs are exactly as before. -/
theorem claim6_theorem (deviceId userId : Option String) (st : ModalState)
    (refs : RefsState) (b : FetchBehavior ScanBody)
    (h : st.isScanning = true ∨ strTruthy deviceId = false ∨ strTruthy userId = false) :
    scanRun deviceId userId st refs b =
      { state := st, refs := refs, issued := false, outcome := .noOp } := by
  have hg : (!strTruthy deviceId || st.isScanning || !strTruthy userId) = true := by
    rcases h with h | h | h <;> simp [h]
  simp [scanRun, scanStart, hg]

/-- C6 witness: a second scan while one is in flight is a no-op. -/
theorem claim6_witness :
    scanRun (some "dev") (some "user") exScanState exFullRefs
        (.resolves 0 ok200 { success := true, networks := .arr scenarioEntries }) =
      { state := exScanState, refs := exFullRefs, issued := false, outcome := .noOp } :=
  claim6_theorem (some "dev") (some "user") exScanState exFullRefs
    (.resolves 0 ok200 { success := true, networks := .arr scenarioEntries })
    (Or.inl rfl)

/-- C7: a scan that has not settled within the 30000 ms bound is aborted and
yields exactly the single `TimeoutError` outcome with `isScanning` reset,
while a transport rejection inside the bound (whose error is not named
`AbortError`) yields `NetworkError`; configure behaves the same with its
60000 ms bound. -/
theorem claim7_theorem (deviceId userId : Option String) (st : ModalState)
    (refs : RefsState) :
    (∀ b : FetchBehavior ScanBody,
      strTruthy deviceId = true → st.isScanning = false → strTruthy userId = true →
      st.mounted = true → scanTimeoutMs ≤ b.settleTime →
      (scanRun deviceId userId st refs b).outcome = .failed .timeoutError ∧
      (scanRun deviceId userId st refs b).state.isScanning = false) ∧
    (∀ (t : Nat) (n m : String),
      strTruthy deviceId = true → st.isScanning = false → strTruthy userId = true →
      st.mounted = true → t < scanTimeoutMs → n ≠ "AbortError" →
      (scanRun deviceId userId st refs (.rejects t n m)).outcome =
        .failed (.networkError m)) ∧
    (∀ (b : FetchBehavior ConfigBody) (nw : Network),
      st.selectedNetwork = some nw → strTruthy deviceId = true →
      st.isConfiguring = false → strTruthy userId = true → st.mounted = true →
      (nw.encryption = some "OPEN" ∨ st.wifiPassword ≠ "") →
      configureTimeoutMs ≤ b.settleTime →
      (configureRun deviceId userId st b).outcome = .failed .timeoutError ∧
      (configureRun deviceId userId st b).state.isConfiguring = false) ∧
    (∀ (t : Nat) (n m : String) (nw : Network),
      st.selectedNetwork = some nw → strTruthy deviceId = true →
      st.isConfiguring = false → strTruthy userId = true → st.mounted = true →
      (nw.encryption = some "OPEN" ∨ st.wifiPassword ≠ "") →
      t < configureTimeoutMs → n ≠ "AbortError" →
      (configureRun deviceId userId st (.rejects t n m)).outcome =
        .failed (.networkError m)) := by
  refine ⟨?_, ?_, ?_, ?_⟩
  · intro b hd hsc hu hm ht
    have hg : (!strTruthy deviceId || st.isScanning || !strTruthy userId) = false := by
      simp [hd, hsc, hu]
    have hres : (fetchWithTimeout b scanTimeoutMs).result = .error .abortError := by
      rw [fetchWithTimeout_result, rawFetch_of_timeout b scanTimeoutMs ht]
    simp [scanRun, scanStart, hg, hm, hres, scanResolve, scanCatch, caughtKind, JsErr.name]
  · intro t n m hd hsc hu hm ht hn
    have hg : (!strTruthy deviceId || st.isScanning || !strTruthy userId) = false := by
      simp [hd, hsc, hu]
    have hres : (fetchWithTimeout (FetchBehavior.rejects t n m : FetchBehavior ScanBody)
        scanTimeoutMs).result = .error (.transport n m) := by
      rw [fetchWithTimeout_result]
      simp [rawFetch, ht]
    have hbeq : (n == "AbortError") = false := by
      simpa using hn
    simp [scanRun, scanStart, hg, hm, hres, scanResolve, scanCatch, caughtKind,
      JsErr.name, hbeq]
  · intro b nw hsel hd hcf hu hm henc ht
    have hg : (!strTruthy deviceId || st.isConfiguring || !strTruthy userId) = false := by
      simp [hd, hcf, hu]
    have hpw : (nw.encryption != some "OPEN" && !strTruthy (some st.wifiPassword)) = false := by
      rcases henc with h | h
      · simp [h]
      · simp [strTruthy, h]
    have hres : (fetchWithTimeout b configureTimeoutMs).result = .error .abortError := by
      rw [fetchWithTimeout_result, rawFetch_of_timeout b configureTimeoutMs ht]
    simp [configureRun, hsel, hg, hpw, hm, hres, configureResolve, configureCatch,
      caughtKind, JsErr.name]
  · intro t n m nw hsel hd hcf hu hm henc ht hn
    have hg : (!strTruthy deviceId || st.isConfiguring || !strTruthy userId) = false := by
      simp [hd, hcf, hu]
    have hpw : (nw.encryption != some "OPEN" && !strTruthy (some st.wifiPassword)) = false := by
      rcases henc with h | h
      · simp [h]
      · simp [strTruthy, h]
    have hres : (fetchWithTimeout (FetchBehavior.rejects t n m : FetchBehavior ConfigBody)
        configureTimeoutMs).result = .error (.transport n m) := by
      rw [fetchWithTimeout_result]
      simp [rawFetch, ht]
    have hbeq : (n == "AbortError") = false := by
      simpa using hn
    simp [configureRun, hsel, hg, hpw, hm, hres, configureResolve, configureCatch,
      caughtKind, JsErr.name, hbeq]

/-- C7 witness: a scan that would resolve only at 30000 ms times out, a scan
rejection at 10 ms is a network error, and the analogous configure cases at
the 60000 ms bound. -/
theorem claim7_witness :
    ((scanRun (some "dev") (some "user") exPriorState exRefs
        (.resolves 30000 ok200 { success := true, networks := .arr scenarioEntries })).outcome =
      .failed .timeoutError ∧
      (scanRun (some "dev") (some "user") exPriorState exRefs
        (.resolves 30000 ok200 { success := true, networks := .arr scenarioEntries })).state.isScanning =
      false) ∧
    (scanRun (some "dev") (some "user") exPriorState exRefs
        (.rejects 10 "TypeError" "refused")).outcome = .failed (.networkError "refused") ∧
    ((configureRun (some "dev") (some "user") exCfgStartState
        (.resolves 60000 ok200 { success := true, error := none })).outcome =
      .failed .timeoutError ∧
      (configureRun (some "dev") (some "user") exCfgStartState
        (.resolves 60000 ok200 { success := true, error := none })).state.isConfiguring =
      false) ∧
    (configureRun (some "dev") (some "user") exCfgStartState
        (.rejects 10 "TypeError" "refused")).outcome = .failed (.networkError "refused") := by
  refine ⟨?_, ?_, ?_, ?_⟩
  · exact (claim7_theorem (some "dev") (some "user") exPriorState exRefs).1
      (.resolves 30000 ok200 { success := true, networks := .arr scenarioEntries })
      rfl rfl rfl rfl (by decide)
  · exact (claim7_theorem (some "dev") (some "user") exPriorState exRefs).2.1
      10 "TypeError" "refused" rfl rfl rfl rfl (by decide) (by decide)
  · exact (claim7_theorem (some "dev") (some "user") exCfgStartState exRefs).2.2.1
      (.resolves 60000 ok200 { success := true, error := none }) nwHome
      rfl rfl rfl rfl rfl (Or.inr (by decide)) (by decide)
  · exact (claim7_theorem (some "dev") (some "user") exCfgStartState exRefs).2.2.2
      10 "TypeError" "refused" nwHome
      rfl rfl rfl rfl rfl (Or.inr (by decide)) (by decide) (by decide)

/-- C8: every non-2xx response makes the operation fail with
`HttpStatusError` carrying the response's status code, resetting the
relevant in-flight flag. -/
theorem claim8_theorem (sts stc : ModalState) (resp : HttpResponse)
    (sb : ScanBody) (cb : ConfigBody)
    (hms : sts.mounted = true) (hmc : stc.mounted = true)
    (hok : resp.ok = false) :
    scanResolve sts (.ok (resp, sb)) =
      ({ sts with isScanning := false },
        .failed (.httpStatusError resp.status resp.statusText)) ∧
    configureResolve stc (.ok (resp, cb)) =
      ({ stc with isConfiguring := false },
        .failed (.httpStatusError resp.status resp.statusText)) := by
  constructor
  · simp [scanResolve, hok, scanCatch, hms, caughtKind, JsErr.name]
  · simp [configureResolve, hok, configureCatch, hmc, caughtKind, JsErr.name]

/-- C8 witness: end-to-end scenario 4, a configure POST answered with HTTP
500 fails with `HttpStatusError` carrying 500 and `isConfiguring` resets. -/
theorem claim8_witness :
    scanResolve exScanState (.ok (resp500, { success := true, networks := .missing })) =
      ({ exScanState with isScanning := false },
        .failed (.httpStatusError 500 "Internal Server Error")) ∧
    configureResolve exCfgState (.ok (resp500, { success := true, error := none })) =
      ({ exCfgState with isConfiguring := false },
        .failed (.httpStatusError 500 "Internal Server Error")) :=
  claim8_theorem exScanState exCfgState resp500
    { success := true, networks := .missing } { success := true, error := none }
    rfl rfl (by decide)

/-- C9: `cleanupWifiListener` never raises (every listener / deferred
cleanup invocation is wrapped in try/catch), releases each held resource
exactly once, and a second call is a no-op: it releases nothing and leaves
the refs exactly as the first call left them. -/
theorem claim9_theorem (r : RefsState) :
    (cleanupWifiListener r).raised = false ∧
    (cleanupWifiListener (cleanupWifiListener r).refs).raised = false ∧
    (cleanupWifiListener (cleanupWifiListener r).refs).refs =
      (cleanupWifiListener r).refs ∧
    (cleanupWifiListener (cleanupWifiListener r).refs).released = [] ∧
    (∀ id, r.wifiScanTimer = some id →
      (cleanupWifiListener r).released.count (Release.clearScanTimer id) = 1) ∧
    (r.wifiListener.isSome = true →
      (cleanupWifiListener r).released.count Release.removeListener = 1) := by
  obtain ⟨timer, listener, fns⟩ := r
  have hcount : ∀ (x : Release) (k : Nat), (∀ i, x ≠ Release.runCleanupFn i) →
      ((List.range k).map Release.runCleanupFn).count x = 0 := by
    intro x k hx
    rw [List.count_eq_zero]
    intro hmem
    rcases List.mem_map.mp hmem with ⟨i, _, hi⟩
    exact hx i hi.symm
  cases timer <;> cases listener <;>
    refine ⟨rfl, rfl, rfl, by simp [cleanupWifiListener], ?_, ?_⟩ <;>
    simp_all [cleanupWifiListener, List.count_cons, hcount]

/-- C9 witness: refs holding a timer (id 7), a throwing listener and two
deferred cleanup functions are released exactly once, never raising, and a
repeated call releases nothing. -/
theorem claim9_witness :
    (cleanupWifiListener exFullRefs).raised = false ∧
    (cleanupWifiListener (cleanupWifiListener exFullRefs).refs).released = [] ∧
    (cleanupWifiListener (cleanupWifiListener exFullRefs).refs).refs =
      (cleanupWifiListener exFullRefs).refs ∧
    (cleanupWifiListener exFullRefs).released.count (Release.clearScanTimer 7) = 1 ∧
    (cleanupWifiListener exFullRefs).released.count Release.removeListener = 1 :=
  ⟨(claim9_theorem exFullRefs).1,
    (claim9_theorem exFullRefs).2.2.2.1,
    (claim9_theorem exFullRefs).2.2.1,
    (claim9_theorem exFullRefs).2.2.2.2.1 7 rfl,
    (claim9_theorem exFullRefs).2.2.2.2.2 rfl⟩

/-- C10: whatever the underlying request does, the wrapper's timer is never
left pending (cleared in the success branch, cleared in the catch branch,
already fired in the abort case), and the wrapper returns the underlying
response or re-throws the underlying error unchanged. -/
theorem claim10_theorem {β : Type} (b : FetchBehavior β) (timeoutMs : Nat) :
    (fetchWithTimeout b timeoutMs).timer.pending = false ∧
    (fetchWithTimeout b timeoutMs).result = rawFetch b timeoutMs := by
  refine ⟨?_, fetchWithTimeout_result b timeoutMs⟩
  cases h : rawFetch b timeoutMs <;>
    simp [fetchWithTimeout, h, TimerState.pending]
